import Mathlib

/-!
Verification of the credential refresh and propagation subsystem of
`serve.py` (Weaviate text2vec MCP adapter).

The Python source is shallowly embedded: module-level mutable globals
(`_VERTEX_HEADERS`, `_VERTEX_REFRESH_THREAD_STARTED`, `_VERTEX_USER_PROJECT`,
`os.environ["GOOGLE_APIKEY"]`, `os.environ["PALM_APIKEY"]`) become explicit
state records threaded through the functions; external effects (the OAuth
exchange `creds.refresh(Request())`, file lookups, `google.auth.default`)
become parameters carrying the outcome the external world produced.
Timestamps are modelled in whole seconds as `Int` (the Python code uses
`total_seconds()` on integral-second datetimes and truncates via `int`,
which is exact for whole seconds).  Tokens and header values are `String`s;
a `Some`/`none` option models Python truthiness of a present/absent token
(the code only ever stores non-empty tokens or leaves the slot unset).
-/

namespace Serve

/-! ### Refresh scheduler delay (`_refresh_vertex_oauth_loop`, serve.py lines 740-747)

The loop body after a successful `creds.refresh(Request())` computes

    sleep_s = 55 * 60
    if creds.expiry:
        delta = (creds.expiry - now).total_seconds() - 300
        if delta > 300:
            sleep_s = int(delta)
    time.sleep(sleep_s)
-/

/-- Embedding of the sleep computation of `_refresh_vertex_oauth_loop`
(serve.py lines 740-746): fallback 55*60 seconds; when the provider reported
an expiry, `delta = expiry - now - 300` replaces the fallback only when
`delta > 300`.  No ceiling is applied to `delta`. -/
def sleepAfterSuccess (now : Int) (expiry : Option Int) : Int :=
  match expiry with
  | none => 55 * 60
  | some e =>
    let delta := e - now - 300
    if delta > 300 then delta else 55 * 60

/-- Modelled from the spec: the spec's formula for the next refresh delay,
`min(providerExpiry - nowAtCommit - 300s, 55*60s)` when the expiry is known,
else the fixed 55-minute fallback (spec section 4.3 / claim C1).  Kept
separate from `sleepAfterSuccess`, which embeds the source code, so the two
can be compared. -/
def sleepSpecFormula (now : Int) (expiry : Option Int) : Int :=
  match expiry with
  | none => 55 * 60
  | some e => min (e - now - 300) (55 * 60)

/-! ### Derived header map and gRPC metadata

`_build_vertex_header_map` (serve.py lines 41-53) and the metadata lists
built in `_connect` (lines 249-258) and `_update_client_grpc_metadata`
(lines 303-310).  The project id argument stands for the value of
`_VERTEX_USER_PROJECT or _discover_gcp_project()` at build time. -/

/-- Embedding of `_build_vertex_header_map(token)` (serve.py lines 41-53):
the HTTP header map `{"X-Goog-Vertex-Api-Key": token}` plus
`"X-Goog-User-Project"` when a project id is available. -/
def buildVertexHeaderMap (token : String) (projectId : Option String) :
    List (String × String) :=
  ("X-Goog-Vertex-Api-Key", token) ::
    (match projectId with
     | some p => [("X-Goog-User-Project", p)]
     | none => [])

/-- Embedding of the gRPC metadata list built in `_connect` (serve.py lines
253-258) and `_update_client_grpc_metadata` (lines 305-310):
`[("x-goog-vertex-api-key", token)]` plus `("x-goog-user-project", p)` when
a project id is available. -/
def buildGrpcMetadata (token : String) (projectId : Option String) :
    List (String × String) :=
  ("x-goog-vertex-api-key", token) ::
    (match projectId with
     | some p => [("x-goog-user-project", p)]
     | none => [])

/-! ### Header/metadata divergence trace machine (claim C3)

State of one process holding the global `_VERTEX_HEADERS` token and at most
one connected Weaviate client.  A client created by `_connect` carries the
HTTP headers it was constructed with (fixed at
`weaviate.connect_to_weaviate_cloud(..., headers=...)`, serve.py lines
242-246, and never rewritten afterwards) and its gRPC metadata attribute
(rewritten by `_update_client_grpc_metadata`, lines 282-331). -/

/-- A connected client's vertex credential as visible to the two transports:
the `X-Goog-Vertex-Api-Key` HTTP header fixed at construction, and the
`x-goog-vertex-api-key` entry of the mutable gRPC metadata attribute. -/
structure ClientConn where
  httpVertex : Option String
  grpcVertex : Option String
  deriving DecidableEq

/-- Process state for the divergence trace: the token held in the global
`_VERTEX_HEADERS` map, plus the (at most one) connected client. -/
structure VertexSys where
  cacheToken : Option String
  client : Option ClientConn
  deriving DecidableEq

/-- Events of the credential subsystem.  `connectOp fresh` is `_connect()`
with the OAuth exchange producing `fresh` when a refresh is needed;
`backgroundRefreshOp t` is one successful iteration of
`_refresh_vertex_oauth_loop` committing token `t` (serve.py lines 732-737);
`updateGrpcOp fb` is `_update_client_grpc_metadata(client)` whose inline
`_sync_refresh_vertex_token()` (run only when the cache is empty, lines
289-292) would produce `fb`. -/
inductive VertexOp where
  | connectOp (freshToken : String)
  | backgroundRefreshOp (newToken : String)
  | updateGrpcOp (fallbackToken : Option String)

/-- One event of the credential subsystem applied to the process state.
`connectOp`: `_connect` uses the cached token when present (serve.py lines
221-229), else refreshes and commits `fresh`; the new client gets that token
in both its HTTP headers (line 233) and its gRPC metadata (lines 249-262).
`backgroundRefreshOp`: the scheduler loop overwrites `_VERTEX_HEADERS`
(line 734) and touches no client.  `updateGrpcOp`: rewrites only the
client's gRPC metadata from the current cache (lines 303-325), leaving the
client's HTTP headers as they were at construction. -/
def applyVertexOp (s : VertexSys) : VertexOp → VertexSys
  | .connectOp fresh =>
    match s.cacheToken with
    | some t => { cacheToken := some t, client := some ⟨some t, some t⟩ }
    | none => { cacheToken := some fresh, client := some ⟨some fresh, some fresh⟩ }
  | .backgroundRefreshOp t => { cacheToken := some t, client := s.client }
  | .updateGrpcOp fb =>
    match s.cacheToken with
    | some t =>
      { cacheToken := some t,
        client := s.client.map (fun c => ⟨c.httpVertex, some t⟩) }
    | none =>
      match fb with
      | some t =>
        { cacheToken := some t,
          client := s.client.map (fun c => ⟨c.httpVertex, some t⟩) }
      | none => s

/-- Run a sequence of credential subsystem events. -/
def runVertexOps (s : VertexSys) (ops : List VertexOp) : VertexSys :=
  ops.foldl applyVertexOp s

/-! ### Project id discovery (`_discover_gcp_project`, serve.py lines 56-86,
and `_load_vertex_user_project`, lines 121-150)

The extraction of `project_id` from each of the three sources (parsing the
inline JSON blob, reading and parsing the credential file, calling
`google.auth.default`) is abstracted as the `Option String` outcome the
source yields in the current environment; the embedded function is the
precedence chain over those outcomes, which is what the source contributes.
`_discover_gcp_project` holds no state and writes no global: its Lean
embedding is a pure function of the current environment outcomes, called
anew at each use site, exactly as the Python function re-reads `os.environ`
on every call. -/

/-- Outcomes, in the current process environment, of the three project-id
sources tried by `_discover_gcp_project`: `project_id` parsed from the
`GOOGLE_APPLICATION_CREDENTIALS_JSON` blob (serve.py lines 57-64),
`project_id` read from the `GOOGLE_APPLICATION_CREDENTIALS` file (lines
66-74), and the project returned by `google.auth.default` (lines 76-85). -/
structure DiscoveryEnv where
  jsonBlobProject : Option String
  fileProject : Option String
  defaultProject : Option String
  deriving DecidableEq

/-- Embedding of `_discover_gcp_project` (serve.py lines 56-86): try the
inline JSON blob, then the credential file, then `google.auth.default`,
first success winning.  The function memoises nothing. -/
def discoverGcpProject (env : DiscoveryEnv) : Option String :=
  match env.jsonBlobProject with
  | some p => some p
  | none =>
    match env.fileProject with
    | some p => some p
    | none => env.defaultProject

/-- Embedding of `_load_vertex_user_project(path)` (serve.py lines 121-150)
as a transformer of the `_VERTEX_USER_PROJECT` global: if already set it is
kept (lines 123-124); else `project_id` from the service-account file, else
its `quota_project_id` (lines 128-130).  Returns the new value of the
global. -/
def loadVertexUserProject (current : Option String)
    (fileProjectId fileQuotaProjectId : Option String) : Option String :=
  match current with
  | some p => some p
  | none =>
    match fileProjectId with
    | some p => some p
    | none => fileQuotaProjectId

/-- The project id used when building headers/metadata:
`_VERTEX_USER_PROJECT or _discover_gcp_project()` (serve.py lines 50, 256,
308).  When the global is unset, discovery runs again against the current
environment; nothing is written back to the global. -/
def resolveProjectForHeaders (userProject : Option String)
    (env : DiscoveryEnv) : Option String :=
  match userProject with
  | some p => some p
  | none => discoverGcpProject env

/-! ### Environment variables written by refreshes (claims C4, C5, C10) -/

/-- The two process environment variables the refresh paths write:
`GOOGLE_APIKEY` and `PALM_APIKEY` (serve.py lines 188-189, 235-236,
328-329, 736-737). -/
structure EnvVars where
  googleApikey : Option String
  palmApikey : Option String
  deriving DecidableEq

/-! ### Synchronous on-demand refresh (`_sync_refresh_vertex_token`,
serve.py lines 152-190) -/

/-- Result of `_sync_refresh_vertex_token`: the environment variables and
the `_VERTEX_HEADERS` token after the call, plus the boolean return. -/
structure SyncRefreshResult where
  env : EnvVars
  cache : Option String
  ok : Bool
  deriving DecidableEq

/-- Embedding of `_sync_refresh_vertex_token` (serve.py lines 152-190).
`credPath` is the outcome of `_resolve_service_account_path()` (lines
164-167); `exchangeResult` is the token produced by the OAuth exchange
`creds.refresh(Request())`, `none` covering both a raised exception (lines
175-177) and a `None` token after refresh (lines 180-182).  On success the
global headers are rebuilt from the token (line 185) and both environment
variables are set to the full token (lines 188-189); on failure nothing is
mutated and `False` is returned. -/
def syncRefreshVertexToken (env : EnvVars) (cache : Option String)
    (credPath : Option String) (exchangeResult : Option String) :
    SyncRefreshResult :=
  match credPath with
  | none => ⟨env, cache, false⟩
  | some _ =>
    match exchangeResult with
    | none => ⟨env, cache, false⟩
    | some t => ⟨⟨some t, some t⟩, some t, true⟩

/-! ### Connection setup (`_connect`, serve.py lines 193-279) -/

/-- The static vertex token configuration read by `_connect` (serve.py
lines 215-218): `VERTEX_APIKEY`, else `VERTEX_BEARER_TOKEN`. -/
structure ConnectEnv where
  vertexApikey : Option String
  vertexBearerToken : Option String
  deriving DecidableEq

/-- Errors `_connect` can raise before any vertex-token handling:
`RuntimeError` from `_get_weaviate_url` (serve.py lines 89-93) and from
`_get_weaviate_api_key` (lines 96-100).  No error exists for a missing
vertex credential. -/
inductive ConnectError where
  | missingWeaviateUrl
  | missingWeaviateApiKey
  deriving DecidableEq

/-- Observable outcome of a successful `_connect`: the vertex token attached
to the new client's headers/metadata (if any), how many inline refreshes
were attempted, the `_VERTEX_HEADERS` token and environment variables
afterwards, and whether the no-token warning (serve.py line 239) was
printed. -/
structure ConnectResult where
  vertexToken : Option String
  refreshAttempts : Nat
  cacheAfter : Option String
  envAfter : EnvVars
  warnedNoToken : Bool
  deriving DecidableEq

/-- Embedding of `_connect` (serve.py lines 193-279).  `refreshResult` is
the token the inline `_sync_refresh_vertex_token()` would commit, `none` for
a failed refresh.  The static env token wins (lines 215-218); otherwise the
cached `_VERTEX_HEADERS` token is used whenever present, with no freshness
check (lines 221-229); otherwise exactly one inline refresh runs.  Whenever
a token was obtained, both environment variables are set to it (lines
235-236); with no token at all the function merely prints a warning (line
239) and still constructs the client (lines 242-246). -/
def connectModel (weaviateUrl weaviateApiKey : Option String)
    (cenv : ConnectEnv) (env : EnvVars) (cache : Option String)
    (refreshResult : Option String) : Except ConnectError ConnectResult :=
  match weaviateUrl with
  | none => .error .missingWeaviateUrl
  | some _ =>
    match weaviateApiKey with
    | none => .error .missingWeaviateApiKey
    | some _ =>
      let staticTok :=
        match cenv.vertexApikey with
        | some t => some t
        | none => cenv.vertexBearerToken
      match staticTok with
      | some t => .ok ⟨some t, 0, cache, ⟨some t, some t⟩, false⟩
      | none =>
        match cache with
        | some t => .ok ⟨some t, 0, cache, ⟨some t, some t⟩, false⟩
        | none =>
          match refreshResult with
          | some t => .ok ⟨some t, 1, some t, ⟨some t, some t⟩, false⟩
          | none => .ok ⟨none, 1, none, env, true⟩

/-! ### Background refresh loop iteration (`_refresh_vertex_oauth_loop`,
serve.py lines 715-750, claims C1, C4, C10) -/

/-- Mutable state touched by one iteration of the background loop: the
`_VERTEX_HEADERS` token and the two environment variables. -/
structure LoopState where
  vertexHeadersToken : Option String
  envGoogle : Option String
  envPalm : Option String
  deriving DecidableEq

/-- Outcome of the `creds.refresh(Request())` call opening a loop iteration:
either a token (with the expiry the provider reported, if any), or a raised
exception. -/
inductive RefreshOutcome where
  | succeeded (token : String) (expiry : Option Int)
  | failed

/-- Observable result of one loop iteration: the state afterwards, the
seconds slept before the next attempt, and whether the error branch printed
a refresh-error report (serve.py line 749). -/
structure IterResult where
  state : LoopState
  sleepSeconds : Int
  errorReported : Bool
  deriving DecidableEq

/-- Embedding of one iteration of the `while True` body of
`_refresh_vertex_oauth_loop` (serve.py lines 730-750).  On success the
headers and both environment variables are rewritten from the fresh token
(lines 734-737) and the next delay is `sleepAfterSuccess`; on failure
nothing is mutated, the error is printed, and the loop sleeps a fixed 60
seconds (lines 748-750). -/
def loopIter (s : LoopState) (now : Int) (o : RefreshOutcome) : IterResult :=
  match o with
  | .succeeded t e => ⟨⟨some t, some t, some t⟩, sleepAfterSuccess now e, false⟩
  | .failed => ⟨s, 60, true⟩

/-- Run the loop over a finite schedule of refresh outcomes, collecting the
(sleep, errorReported) observation of every iteration.  The output list
having one entry per outcome witnesses that a failed iteration does not
terminate the loop. -/
def runLoop (s : LoopState) : List (Int × RefreshOutcome) →
    LoopState × List (Int × Bool)
  | [] => (s, [])
  | (now, o) :: rest =>
    let r := loopIter s now o
    let (sEnd, tail) := runLoop r.state rest
    (sEnd, (r.sleepSeconds, r.errorReported) :: tail)

/-! ### Interleaved on-demand refreshes (claim C2)

Two request-serving threads concurrently run `_connect`'s on-demand path
(serve.py lines 221-229 calling `_sync_refresh_vertex_token`, lines
152-190).  The Python code holds no lock: the emptiness check of
`_VERTEX_HEADERS` (line 223), the blocking OAuth exchange
`creds.refresh(Request())` (line 174, a network call during which the GIL
is released), and the commit `_VERTEX_HEADERS = ...` (line 185) are
separate atomic steps that interleave freely between threads. -/

/-- Program counter of one thread running the on-demand refresh path:
about to check the cache, about to invoke the Token Source, about to commit
the fetched token, or done. -/
inductive ThreadPC where
  | toCheck
  | toInvoke
  | toCommit
  | done
  deriving DecidableEq

/-- Interleaving state of two threads on the on-demand refresh path:
the shared `_VERTEX_HEADERS` token, the count of Token Source invocations
(`creds.refresh` calls), the count of commits, and each thread's program
counter. -/
structure RefreshSys where
  cache : Option String
  invocations : Nat
  commits : Nat
  pc1 : ThreadPC
  pc2 : ThreadPC
  deriving DecidableEq

/-- One atomic step of a single thread, faithful to serve.py: `toCheck`
reads `_VERTEX_HEADERS` (line 223) and skips the refresh when a token is
cached; `toInvoke` performs the Token Source exchange (line 174),
incrementing the invocation count; `toCommit` stores the fetched token into
`_VERTEX_HEADERS` (line 185). -/
def stepThread (token : String) (cache : Option String) (pc : ThreadPC)
    (inv com : Nat) : Option String × ThreadPC × Nat × Nat :=
  match pc with
  | .toCheck =>
    match cache with
    | some t => (some t, .done, inv, com)
    | none => (none, .toInvoke, inv, com)
  | .toInvoke => (cache, .toCommit, inv + 1, com)
  | .toCommit => (some token, .done, inv, com + 1)
  | .done => (cache, .done, inv, com)

/-- Scheduler step: run one atomic step of thread 1 (`tid = false`, fetching
`tok1`) or thread 2 (`tid = true`, fetching `tok2`). -/
def stepSys (tok1 tok2 : String) (s : RefreshSys) (tid : Bool) : RefreshSys :=
  if tid = false then
    match stepThread tok1 s.cache s.pc1 s.invocations s.commits with
    | (c, pc, i, k) => ⟨c, i, k, pc, s.pc2⟩
  else
    match stepThread tok2 s.cache s.pc2 s.invocations s.commits with
    | (c, pc, i, k) => ⟨c, i, k, s.pc1, pc⟩

/-- Run an interleaving schedule over the two-thread refresh system. -/
def runSys (tok1 tok2 : String) (s : RefreshSys) (sched : List Bool) :
    RefreshSys :=
  sched.foldl (stepSys tok1 tok2) s

/-- Initial state for claim C2: no cached credential, both threads about to
run the on-demand refresh path. -/
def initRefreshSys : RefreshSys :=
  ⟨none, 0, 0, .toCheck, .toCheck⟩

/-- How many Token Source invocations a thread at this program counter may
still perform (used as an invariant measure). -/
def pendingInvocations : ThreadPC → Nat
  | .toCheck => 1
  | .toInvoke => 1
  | .toCommit => 0
  | .done => 0

/-! ### Scheduler start guard (`_maybe_start_vertex_oauth_refresher`,
serve.py lines 753-768, claim C7) -/

/-- Python's `str.lower()` on the flag value, character by character; the
values compared against ("1", "true", "yes") are ASCII, for which this
agrees with Python. -/
def lowerAscii (s : String) : String :=
  String.mk (s.data.map Char.toLower)

/-- Embedding of the `VERTEX_USE_OAUTH` feature test (serve.py line 757):
`os.environ.get("VERTEX_USE_OAUTH", "").lower() in ("1", "true", "yes")`. -/
def oauthFlagEnabled (raw : String) : Bool :=
  let v := lowerAscii raw
  v == "1" || v == "true" || v == "yes"

/-- Embedding of `_maybe_start_vertex_oauth_refresher` (serve.py lines
753-768) as a transition on the `_VERTEX_REFRESH_THREAD_STARTED` flag.
`flagValue` is the raw `VERTEX_USE_OAUTH` environment value (`none` when
unset); `saPath` is the outcome of `_resolve_service_account_path()` after
`_write_adc_from_json_env()` (lines 759-760).  Returns the new flag and
whether a refresher thread was launched (lines 764-768). -/
def maybeStartRefresher (started : Bool) (flagValue : Option String)
    (saPath : Option String) : Bool × Bool :=
  if started then (started, false)
  else if oauthFlagEnabled (flagValue.getD "") = false then (started, false)
  else
    match saPath with
    | none => (started, false)
    | some _ => (true, true)

/-- Run a sequence of calls to `_maybe_start_vertex_oauth_refresher`,
returning the final flag and the total number of threads launched. -/
def runStarts : Bool → List (Option String × Option String) → Bool × Nat
  | started, [] => (started, 0)
  | started, (flag, path) :: rest =>
    match maybeStartRefresher started flag path with
    | (s₂, launched) =>
      match runStarts s₂ rest with
      | (sEnd, n) => (sEnd, (if launched then 1 else 0) + n)

/-! ### Diagnostic snapshot (`diagnose_vertex`, serve.py lines 649-678,
claim C8) -/

/-- Embedding of the token preview computed by `diagnose_vertex`
(serve.py line 672): `creds.token[:12] + "..."`, over the token's character
list. -/
def diagTokenSample (token : List Char) : List Char :=
  token.take 12 ++ ['.', '.', '.']

/-- `needle` occurs contiguously inside `hay`. -/
def occursIn (needle hay : List Char) : Prop :=
  ∃ s₁ s₂, hay = s₁ ++ needle ++ s₂

/-! ### Collection override in `hybrid_search` (serve.py lines 567-579,
claim C9) -/

/-- Embedding of the collection override at the top of `hybrid_search`
(serve.py lines 575-579): a non-empty collection different from
"WindBilance" is replaced by "WindBilance" (Python string truthiness makes
the empty string fall through). -/
def normalizeCollection (c : String) : String :=
  if c ≠ "" ∧ c ≠ "WindBilance" then "WindBilance" else c

/-- Embedding of `hybrid_search` abstracted over the rest of its body
(serve.py lines 587-633): after the override, the collection name feeds the
query pipeline (`client.collections.get(collection)` and everything after),
represented by `execQuery`; no other part of the body reads the original
argument. -/
def hybridSearchModel {α : Type} (execQuery : String → α)
    (collection : String) : α :=
  execQuery (normalizeCollection collection)

/-! ## Helper lemmas -/

/-- `runLoop` produces one observation per scheduled outcome: no outcome,
in particular no failure, stops the loop. -/
theorem runLoop_length (s : LoopState) (outs : List (Int × RefreshOutcome)) :
    (runLoop s outs).2.length = outs.length := by
  induction outs generalizing s with
  | nil => rfl
  | cons a rest ih =>
    obtain ⟨now, o⟩ := a
    simp [runLoop, ih]

/-- One scheduler step never increases the invocation budget
`invocations + pending(pc1) + pending(pc2)`. -/
theorem stepSys_invocations_bound (tok1 tok2 : String) (s : RefreshSys)
    (tid : Bool) :
    (stepSys tok1 tok2 s tid).invocations
      + pendingInvocations (stepSys tok1 tok2 s tid).pc1
      + pendingInvocations (stepSys tok1 tok2 s tid).pc2
      ≤ s.invocations + pendingInvocations s.pc1 + pendingInvocations s.pc2 := by
  rcases s with ⟨cache, inv, com, pc1, pc2⟩
  cases tid <;> cases pc1 <;> cases pc2 <;> cases cache <;>
    simp [stepSys, stepThread, pendingInvocations]

/-- Along any schedule, invocations stay within the initial budget. -/
theorem runSys_invocations_bound (tok1 tok2 : String) (sched : List Bool)
    (s : RefreshSys) :
    (runSys tok1 tok2 s sched).invocations
      ≤ s.invocations + pendingInvocations s.pc1 + pendingInvocations s.pc2 := by
  induction sched generalizing s with
  | nil =>
    simp only [runSys, List.foldl_nil]
    omega
  | cons tid rest ih =>
    have h1 := stepSys_invocations_bound tok1 tok2 s tid
    have h2 := ih (stepSys tok1 tok2 s tid)
    simp only [runSys, List.foldl_cons] at h2 ⊢
    omega

/-- With a cached token and both threads idle (about to check, or done),
no schedule ever invokes the Token Source. -/
theorem runSys_no_invoke_of_cached (tok1 tok2 : String) (sched : List Bool) :
    ∀ s : RefreshSys, s.cache.isSome = true →
      (s.pc1 = .toCheck ∨ s.pc1 = .done) →
      (s.pc2 = .toCheck ∨ s.pc2 = .done) →
      (runSys tok1 tok2 s sched).invocations = s.invocations := by
  induction sched with
  | nil => intro s _ _ _; rfl
  | cons tid rest ih =>
    intro s hc h1 h2
    rcases s with ⟨cache, inv, com, pc1, pc2⟩
    cases cache with
    | none => simp at hc
    | some t =>
      simp only [runSys, List.foldl_cons]
      cases tid <;> rcases h1 with h1 | h1 <;> rcases h2 with h2 | h2 <;>
        subst h1 <;> subst h2 <;>
        exact ih _ rfl (by simp [stepSys, stepThread]) (by simp [stepSys, stepThread])

/-- `_maybe_start_vertex_oauth_refresher` either does nothing or launches
exactly one thread and sets the started flag. -/
theorem maybeStartRefresher_cases (s : Bool) (f p : Option String) :
    maybeStartRefresher s f p = (s, false) ∨
    maybeStartRefresher s f p = (true, true) := by
  unfold maybeStartRefresher
  split
  · exact Or.inl rfl
  · split
    · exact Or.inl rfl
    · cases p
      · exact Or.inl rfl
      · exact Or.inr rfl

/-- Once the started flag is set, further calls launch nothing. -/
theorem runStarts_true (calls : List (Option String × Option String)) :
    runStarts true calls = (true, 0) := by
  induction calls with
  | nil => rfl
  | cons c rest ih =>
    obtain ⟨f, p⟩ := c
    simp [runStarts, maybeStartRefresher, ih]

/-- Any sequence of start calls from a fresh process launches at most one
refresher thread. -/
theorem runStarts_launch_bound (calls : List (Option String × Option String)) :
    (runStarts false calls).2 ≤ 1 := by
  induction calls with
  | nil => decide
  | cons c rest ih
  =>
    obtain ⟨f, p⟩ := c
    rcases maybeStartRefresher_cases false f p with h | h
    · simpa [runStarts, h] using ih
    · simp [runStarts, h, runStarts_true]

/-! ## Claims -/

/-- Claim C1, counterexample.  The claim states the post-success delay is
`min(providerExpiry - nowAtCommit - 300, 55*60)` and that an expiry 7200
seconds ahead yields a delay clipped to 3300 seconds.  The embedded loop
body (`sleepAfterSuccess`, serve.py lines 740-746) applies no ceiling: at
`now = 0`, `expiry = 7200` it sleeps 6900 seconds, while the spec formula
(`sleepSpecFormula`) yields 3300. -/
theorem c1_counterexample :
    sleepAfterSuccess 0 (some 7200) = 6900 ∧
    sleepSpecFormula 0 (some 7200) = 3300 ∧
    sleepAfterSuccess 0 (some 7200) ≠ sleepSpecFormula 0 (some 7200) :=
  ⟨by decide, by decide, by decide⟩

/-- Claim C1, amended.  After a successful background refresh the delay is
`providerExpiry - nowAtCommit - 300` seconds whenever that quantity exceeds
300 seconds, and the fixed 55-minute fallback otherwise (also when no expiry
was reported); no 55-minute ceiling is applied, so an expiry 7200 seconds
ahead yields 6900 seconds, not 3300. -/
theorem c1_amended (now e : Int) :
    (e - now - 300 > 300 → sleepAfterSuccess now (some e) = e - now - 300) ∧
    (e - now - 300 ≤ 300 → sleepAfterSuccess now (some e) = 55 * 60) ∧
    sleepAfterSuccess now none = 55 * 60 ∧
    sleepAfterSuccess 0 (some 7200) = 6900 := by
  refine ⟨fun h => ?_, fun h => ?_, rfl, by decide⟩
  · simp only [sleepAfterSuccess]
    rw [if_pos h]
  · simp only [sleepAfterSuccess]
    rw [if_neg (not_lt.mpr h)]

/-- Witness for `c1_amended` at `now = 0` with `e = 7200` (first branch)
and `e = 500` (second branch). -/
theorem c1_witness :
    ((7200 : Int) - 0 - 300 > 300 ∧ sleepAfterSuccess 0 (some 7200) = 7200 - 0 - 300) ∧
    ((500 : Int) - 0 - 300 ≤ 300 ∧ sleepAfterSuccess 0 (some 500) = 55 * 60) :=
  ⟨⟨by decide, (c1_amended 0 7200).1 (by decide)⟩,
   ⟨by decide, (c1_amended 0 500).2.1 (by decide)⟩⟩

/-- Claim C2, counterexample.  With no cached credential, the schedule
"thread 1 checks, thread 2 checks, thread 1 invokes, thread 2 invokes" is a
legal interleaving of `_connect`'s on-demand path (there is no lock in
serve.py): the Token Source is invoked twice before any commit, refuting
"invoked at most once before the first commit". -/
theorem c2_counterexample :
    (runSys "t1" "t2" initRefreshSys [false, true, false, true]).invocations = 2 ∧
    (runSys "t1" "t2" initRefreshSys [false, true, false, true]).commits = 0 ∧
    1 < (runSys "t1" "t2" initRefreshSys [false, true, false, true]).invocations :=
  ⟨rfl, rfl, by decide⟩

/-- Claim C2, amended.  No mutual-exclusion guard exists: with no cached
credential, concurrent on-demand refreshes may each invoke the Token Source
before the first commit; the invocation count is bounded only by the number
of requesters (at most one invocation per requester, here two), and
requesters that observe a cached credential invoke the Token Source zero
times. -/
theorem c2_amended (tok1 tok2 t : String) (sched : List Bool) :
    (runSys tok1 tok2 initRefreshSys sched).invocations ≤ 2 ∧
    (runSys tok1 tok2 ⟨some t, 0, 0, .toCheck, .toCheck⟩ sched).invocations = 0 := by
  constructor
  · have h := runSys_invocations_bound tok1 tok2 sched initRefreshSys
    simpa [initRefreshSys, pendingInvocations] using h
  · exact runSys_no_invoke_of_cached tok1 tok2 sched _ rfl (Or.inl rfl) (Or.inl rfl)

/-- Claim C3, counterexample.  Reachable divergence between the two derived
representations on one client: `_connect` with token "a" builds HTTP headers
and gRPC metadata both carrying "a"; a background refresh then overwrites
the global header map with token "b" without touching the client; a
subsequent `_update_client_grpc_metadata` rewrites only the client's gRPC
metadata from the cache.  The client ends with HTTP header token "a" and
gRPC metadata token "b" — the two representations were updated
independently and now diverge. -/
theorem c3_counterexample :
    (runVertexOps ⟨none, none⟩
        [.connectOp "a", .backgroundRefreshOp "b", .updateGrpcOp none]).client
      = some ⟨some "a", some "b"⟩ ∧
    (some "a" : Option String) ≠ some "b" :=
  ⟨rfl, by decide⟩

/-- Claim C3, amended.  Headers and gRPC metadata built together from the
same `(token, projectId)` are mutually consistent — the vertex entry of each
equals the token and the value sequences coincide — but the two
representations are not always regenerated together: the background refresh
rewrites only the global header map and `_update_client_grpc_metadata`
rewrites only a client's metadata, so the representations held by one
client can diverge (see `c3_counterexample`). -/
theorem c3_amended (t : String) (p : Option String) :
    List.lookup "X-Goog-Vertex-Api-Key" (buildVertexHeaderMap t p) = some t ∧
    List.lookup "x-goog-vertex-api-key" (buildGrpcMetadata t p) = some t ∧
    (buildVertexHeaderMap t p).map Prod.snd = (buildGrpcMetadata t p).map Prod.snd := by
  refine ⟨?_, ?_, ?_⟩ <;> cases p <;> rfl

/-- Claim C4, confirmed.  When a loop iteration's refresh fails after a
prior successful commit, the cached credential and environment variables are
left unchanged, the next attempt comes after the fixed 60-second backoff
rather than the computed interval, the failure is reported, and the loop
keeps processing subsequent outcomes (one observation per outcome, so a
failure does not terminate the process). -/
theorem c4_theorem (s : LoopState) (now : Int) (t0 : String)
    (outs : List (Int × RefreshOutcome))
    (h : s.vertexHeadersToken = some t0) :
    (loopIter s now .failed).state = s ∧
    (loopIter s now .failed).state.vertexHeadersToken = some t0 ∧
    (loopIter s now .failed).sleepSeconds = 60 ∧
    (loopIter s now .failed).errorReported = true ∧
    (runLoop s outs).2.length = outs.length :=
  ⟨rfl, h, rfl, rfl, runLoop_length s outs⟩

/-- Witness for `c4_theorem` at a state holding token "tok". -/
theorem c4_witness :
    (loopIter ⟨some "tok", some "tok", some "tok"⟩ 0 .failed).state
      = ⟨some "tok", some "tok", some "tok"⟩ :=
  (c4_theorem ⟨some "tok", some "tok", some "tok"⟩ 0 "tok" [] rfl).1

/-- Claim C5, counterexample.  With no static token, an empty cache, and a
failing inline refresh, `_connect` does not fail with a
`NoCredentialAvailable` error: it prints a warning and still constructs the
client (`.ok`), proceeding without a credential. -/
theorem c5_counterexample :
    connectModel (some "https://cluster") (some "wv-key") ⟨none, none⟩
        ⟨none, none⟩ none none
      = .ok ⟨none, 1, none, ⟨none, none⟩, true⟩ :=
  rfl

/-- Claim C5, amended.  `_connect` uses the cached token whenever one is
present (no freshness check exists — no expiry is even stored), otherwise
performs exactly one synchronous inline refresh; if the cache is empty and
that refresh fails it logs a warning and proceeds to connect without a
vertex credential instead of failing; a static configured token bypasses
cache and refresh entirely. -/
theorem c5_amended (u k t : String) (env : EnvVars) (cache rr : Option String) :
    connectModel (some u) (some k) ⟨none, none⟩ env (some t) rr
      = .ok ⟨some t, 0, some t, ⟨some t, some t⟩, false⟩ ∧
    connectModel (some u) (some k) ⟨none, none⟩ env none (some t)
      = .ok ⟨some t, 1, some t, ⟨some t, some t⟩, false⟩ ∧
    connectModel (some u) (some k) ⟨none, none⟩ env none none
      = .ok ⟨none, 1, none, env, true⟩ ∧
    connectModel (some u) (some k) ⟨some t, none⟩ env cache rr
      = .ok ⟨some t, 0, cache, ⟨some t, some t⟩, false⟩ :=
  ⟨rfl, rfl, rfl, rfl⟩

/-- Claim C6, counterexample.  `_discover_gcp_project` memoises nothing and
the header-building resolution (`_VERTEX_USER_PROJECT or
_discover_gcp_project()`) writes no global: with `_VERTEX_USER_PROJECT`
unset, two resolutions in the same process track the current environment
and can return different values, refuting "cached for the remainder of the
process lifetime and never re-resolved". -/
theorem c6_counterexample :
    resolveProjectForHeaders none ⟨some "proj-a", none, none⟩ = some "proj-a" ∧
    resolveProjectForHeaders none ⟨some "proj-b", none, none⟩ = some "proj-b" ∧
    (some "proj-a" : Option String) ≠ some "proj-b" :=
  ⟨rfl, rfl, by decide⟩

/-- Claim C6, amended.  The project identifier is resolved by trying, in
fixed precedence order, the inline JSON blob, the credential file, then
default discovery, first success winning; but only the value read from the
service-account file by `_load_vertex_user_project` is cached permanently
(in `_VERTEX_USER_PROJECT`) — `_discover_gcp_project` itself performs
discovery anew on every call. -/
theorem c6_amended (env : DiscoveryEnv) (p q : String) (f qp : Option String) :
    (env.jsonBlobProject = some p → discoverGcpProject env = some p) ∧
    (env.jsonBlobProject = none → env.fileProject = some q →
      discoverGcpProject env = some q) ∧
    (env.jsonBlobProject = none → env.fileProject = none →
      discoverGcpProject env = env.defaultProject) ∧
    loadVertexUserProject (some p) f qp = some p ∧
    loadVertexUserProject none (some q) qp = some q ∧
    loadVertexUserProject none none qp = qp := by
  refine ⟨?_, ?_, ?_, rfl, rfl, rfl⟩
  · intro h; simp [discoverGcpProject, h]
  · intro h1 h2; simp [discoverGcpProject, h1, h2]
  · intro h1 h2; simp [discoverGcpProject, h1, h2]

/-- Witness for `c6_amended`: the inline JSON blob wins over a present
credential-file project. -/
theorem c6_witness :
    (⟨some "pa", some "pf", none⟩ : DiscoveryEnv).jsonBlobProject = some "pa" ∧
    discoverGcpProject ⟨some "pa", some "pf", none⟩ = some "pa" :=
  ⟨rfl, (c6_amended ⟨some "pa", some "pf", none⟩ "pa" "q" none none).1 rfl⟩

/-- Claim C7, confirmed.  The background refresher is started at most once
per process: a call with the started flag set is a no-op; with the feature
flag unset, or the service-account path unresolvable, nothing is started;
a launch happens only when the flag value is enabled and a path resolved;
and any sequence of start calls from a fresh process launches at most one
thread. -/
theorem c7_theorem (flag path : Option String)
    (calls : List (Option String × Option String)) :
    maybeStartRefresher true flag path = (true, false) ∧
    (flag = none → maybeStartRefresher false flag path = (false, false)) ∧
    (path = none → maybeStartRefresher false flag path = (false, false)) ∧
    (oauthFlagEnabled (flag.getD "") = false →
      maybeStartRefresher false flag path = (false, false)) ∧
    (runStarts false calls).2 ≤ 1 := by
  refine ⟨rfl, ?_, ?_, ?_, runStarts_launch_bound calls⟩
  · intro h
    subst h
    have hf : oauthFlagEnabled "" = false := by decide
    simp [maybeStartRefresher, hf]
  · intro h
    subst h
    unfold maybeStartRefresher
    split
    · simp_all
    · split
      · rfl
      · rfl
  · intro h
    simp [maybeStartRefresher, h]

/-- Witness for `c7_theorem`: no-op on an already-started process, and no
start when the feature flag is unset. -/
theorem c7_witness :
    maybeStartRefresher true (some "1") (some "/etc/secrets/weaviate-sa.json")
      = (true, false) ∧
    maybeStartRefresher false none (some "/etc/secrets/weaviate-sa.json")
      = (false, false) :=
  ⟨(c7_theorem (some "1") (some "/etc/secrets/weaviate-sa.json") []).1,
   (c7_theorem none (some "/etc/secrets/weaviate-sa.json") []).2.1 rfl⟩

/-- Claim C8, counterexample.  The claim's "the full token string never
appears in any diagnostic output ... for every token value" fails for short
tokens: for the token "abc" the preview `token[:12] + "..."` contains the
full token. -/
theorem c8_counterexample :
    occursIn ("abc".toList) (diagTokenSample ("abc".toList)) ∧
    ("abc".toList).length ≤ 12 :=
  ⟨⟨[], ['.', '.', '.'], by decide⟩, by decide⟩

/-- Claim C8, amended.  The diagnostic token preview has bounded length
(at most 15 characters, of which at most the first 12 are token material),
and for any token longer than 15 characters the full token string never
occurs in the preview. -/
theorem c8_amended (token : List Char) :
    (diagTokenSample token).length ≤ 15 ∧
    (token.take 12).length ≤ 12 ∧
    (15 < token.length → ¬ occursIn token (diagTokenSample token)) := by
  refine ⟨?_, ?_, ?_⟩
  · simp only [diagTokenSample, List.length_append, List.length_take,
      List.length_cons, List.length_nil]
    omega
  · simp only [List.length_take]
    omega
  · rintro hlen ⟨s₁, s₂, heq⟩
    have hl := congrArg List.length heq
    simp only [diagTokenSample, List.length_append, List.length_take,
      List.length_cons, List.length_nil] at hl
    omega

/-- Witness for `c8_amended` at a 16-character token. -/
theorem c8_witness :
    15 < ("abcdefghijklmnop".toList).length ∧
    ¬ occursIn ("abcdefghijklmnop".toList)
        (diagTokenSample ("abcdefghijklmnop".toList)) :=
  ⟨by decide, (c8_amended ("abcdefghijklmnop".toList)).2.2 (by decide)⟩

/-- Claim C9, confirmed.  A call to `hybrid_search` with a non-empty
collection different from "WindBilance" has its collection overridden: the
query pipeline receives "WindBilance", and the result equals that of the
same call made with collection "WindBilance". -/
theorem c9_theorem {α : Type} (execQuery : String → α) (c : String)
    (h1 : c ≠ "") (h2 : c ≠ "WindBilance") :
    normalizeCollection c = "WindBilance" ∧
    hybridSearchModel execQuery c = hybridSearchModel execQuery "WindBilance" := by
  have hn : normalizeCollection c = "WindBilance" := by
    simp [normalizeCollection, h1, h2]
  have hw : normalizeCollection "WindBilance" = "WindBilance" := by
    simp [normalizeCollection]
  exact ⟨hn, by simp [hybridSearchModel, hn, hw]⟩

/-- Witness for `c9_theorem` at collection "Other". -/
theorem c9_witness :
    ("Other" : String) ≠ "" ∧ ("Other" : String) ≠ "WindBilance" ∧
    hybridSearchModel (fun s => s) "Other"
      = hybridSearchModel (fun s => s) "WindBilance" :=
  ⟨by decide, by decide,
   (c9_theorem (fun s => s) "Other" (by decide) (by decide)).2⟩

/-- Claim C10, confirmed.  Every successful token refresh — the synchronous
on-demand path (`_sync_refresh_vertex_token`), the connection setup
(`_connect`), and the background scheduler loop — writes the full bearer
token into both process environment variables `GOOGLE_APIKEY` and
`PALM_APIKEY`, mutating process-wide state beyond the credential cache. -/
theorem c10_theorem (env : EnvVars) (cache : Option String) (p t u k : String)
    (e : Option Int) (now : Int) (s : LoopState) (env₂ : EnvVars) :
    (syncRefreshVertexToken env cache (some p) (some t)).env = ⟨some t, some t⟩ ∧
    (syncRefreshVertexToken env cache (some p) (some t)).ok = true ∧
    (loopIter s now (.succeeded t e)).state.envGoogle = some t ∧
    (loopIter s now (.succeeded t e)).state.envPalm = some t ∧
    connectModel (some u) (some k) ⟨none, none⟩ env₂ none (some t)
      = .ok ⟨some t, 1, some t, ⟨some t, some t⟩, false⟩ :=
  ⟨rfl, rfl, rfl, rfl, rfl⟩

end Serve
